import Mathlib

/-!
Verification of `src/analyze_excel.py` (Electron-Roadmap repository).

The script loads a workbook with `openpyxl`, prints a banner and the list of
sheet names, and for each sheet name prints the sheet's dimensions, the cell
values of row 1 over `range(1, min(max_column + 1, 20))`, and for each row in
`range(2, min(7, max_row + 1))` the cell values over the same column range,
truncated to the first 10 values and followed by a literal `...`.
A single `except Exception` boundary prints `Error: {e}` to stdout and the
traceback (via `traceback.print_exc()`) to stderr.

The embedding below mirrors the script line by line: a `Workbook` is an ordered
list of `Sheet`s, a `Sheet` has `max_row`/`max_column` bounds and a total cell
function (absent cells are `none`, printed as `None`, as in openpyxl).
-/

set_option autoImplicit false

namespace AnalyzeExcel

/-- Python `range(a, b)`: the list `[a, a+1, ..., b-1]` (empty when `b ≤ a`). -/
def pyRange (a b : Nat) : List Nat := (List.range (b - a)).map (a + ·)

/-- A worksheet, as seen through openpyxl: `max_row`/`max_column` dimensions and
a total cell-value map. `ws.cell(row, column).value` never fails for positive
indices; absent cells hold `none` (Python `None`). -/
structure Sheet where
  name : String
  max_row : Nat
  max_column : Nat
  cellValue : Nat → Nat → Option String

/-- A workbook: an ordered sequence of sheets (`openpyxl.load_workbook` result). -/
structure Workbook where
  sheets : List Sheet

/-- `wb.sheetnames`: the sheet names in workbook order. -/
def Workbook.sheetnames (wb : Workbook) : List String :=
  wb.sheets.map Sheet.name

/-- `wb[sheet_name]`: lookup of a sheet by name (first sheet with that name). -/
def Workbook.getSheet (wb : Workbook) (n : String) : Option Sheet :=
  wb.sheets.find? (fun s => s.name == n)

/-- Python `str(v)` of a cell value: `None` for an absent cell. -/
def showVal : Option String → String
  | none => "None"
  | some s => s

/-- Python `repr(v)` of a cell value as it appears inside a printed list. -/
def reprVal : Option String → String
  | none => "None"
  | some s => "'" ++ s ++ "'"

/-- Python `str` of a list of cell values: `[v1, v2, ...]` with `repr` items. -/
def listRepr (vs : List (Option String)) : String :=
  "[" ++ String.intercalate ", " (vs.map reprVal) ++ "]"

/-- Python `str` of a list of strings, as in `print(f"... {wb.sheetnames}")`. -/
def namesRepr (ns : List String) : String :=
  "[" ++ String.intercalate ", " (ns.map (fun n => "'" ++ n ++ "'")) ++ "]"

/-- `"=" * 80`, the banner line. -/
def bar : String := String.mk (List.replicate 80 '=')

/-- The `headers` list built at lines 23-26:
`for col in range(1, min(ws.max_column + 1, 20)): headers.append(ws.cell(row=1, column=col).value)`. -/
def Sheet.headers (ws : Sheet) : List (Option String) :=
  (pyRange 1 (min (ws.max_column + 1) 20)).map (fun col => ws.cellValue 1 col)

/-- The numbered header lines printed at lines 29-30:
`for i, h in enumerate(headers, 1): print(f"  {i}. {h}")`. -/
def Sheet.headerLines (ws : Sheet) : List String :=
  (List.enumFrom 1 ws.headers).map (fun p => "  " ++ toString p.1 ++ ". " ++ showVal p.2)

/-- The `row_data` list built at lines 35-38 for one row. -/
def Sheet.row_data (ws : Sheet) (row : Nat) : List (Option String) :=
  (pyRange 1 (min (ws.max_column + 1) 20)).map (fun col => ws.cellValue row col)

/-- The row indices of the data-row loop at line 34: `range(2, min(7, ws.max_row + 1))`. -/
def Sheet.dataRowNums (ws : Sheet) : List Nat :=
  pyRange 2 (min 7 (ws.max_row + 1))

/-- Line 39: `print(f"  Row {row}: {row_data[:10]}...")`. -/
def Sheet.rowLine (ws : Sheet) (row : Nat) : String :=
  "  Row " ++ toString row ++ ": " ++ listRepr ((ws.row_data row).take 10) ++ "..."

/-- The lines printed for one sheet (lines 17-39). Each element is the argument
of one `print` call; `\n` inside f-strings is kept verbatim. -/
def Sheet.lines (ws : Sheet) : List String :=
  ["\n" ++ bar,
   "SHEET: " ++ ws.name,
   bar,
   "Max Rows: " ++ toString ws.max_row ++ ", Max Columns: " ++ toString ws.max_column ++ "\n",
   "Headers (first 20 columns):"]
  ++ ws.headerLines
  ++ ["\nFirst 5 Data Rows:"]
  ++ ws.dataRowNums.map ws.rowLine

/-- The section printed for one sheet name: `ws = wb[sheet_name]` then the
sheet's lines. (The lookup always succeeds because the name comes from
`wb.sheetnames`; the `none` branch is unreachable for real workbooks.) -/
def sectionFor (wb : Workbook) (n : String) : List String :=
  match wb.getSheet n with
  | some ws => ws.lines
  | none => []

/-- All stdout lines of the success path (lines 10-39). -/
def reportLines (wb : Workbook) : List String :=
  [bar,
   "EXCEL FILE STRUCTURE ANALYSIS",
   bar,
   "\nSheet Names: " ++ namesRepr wb.sheetnames ++ "\n"]
  ++ wb.sheetnames.flatMap (sectionFor wb)

/-- Output channels of the process. -/
inductive Chan where
  | out
  | err
deriving DecidableEq, Repr

/-- The text printed by `traceback.print_exc()` for an exception description. -/
def tracebackText (e : String) : String :=
  "Traceback (most recent call last):\n" ++ e

/-- The whole script (lines 7-44): the `try` block loads the workbook and
prints the report; `except Exception as e` prints `Error: {e}` to stdout and
the traceback to stderr. The load step is the only fallible operation, so it
is modelled as an `Except` input. -/
def run (load : Except String Workbook) : List (Chan × String) :=
  match load with
  | Except.ok wb => (reportLines wb).map (fun l => (Chan.out, l))
  | Except.error e => [(Chan.out, "Error: " ++ e), (Chan.err, tracebackText e)]


/-- A concrete 25-column, 8-row sheet: every cell holds its coordinates, so the
printed values identify exactly which cells the script read. -/
def sheet25 : Sheet :=
  { name := "Wide", max_row := 8, max_column := 25,
    cellValue := fun r c => some (toString r ++ "c" ++ toString c) }

/-- A concrete 3-column, 1-row sheet. -/
def sheet3 : Sheet :=
  { name := "Narrow", max_row := 1, max_column := 3,
    cellValue := fun _ c => some (toString c) }

theorem pyRange_length (a b : Nat) : (pyRange a b).length = b - a := by
  simp [pyRange]

theorem mem_pyRange {a b r : Nat} : r ∈ pyRange a b ↔ a ≤ r ∧ r < b := by
  simp only [pyRange, List.mem_map, List.mem_range]
  constructor
  · rintro ⟨i, hi, rfl⟩; omega
  · rintro ⟨h1, h2⟩; exact ⟨r - a, by omega, by omega⟩

theorem sections_in_order (l : List Sheet) (h : (l.map Sheet.name).Nodup) :
    (l.map Sheet.name).flatMap (sectionFor ⟨l⟩) = l.flatMap Sheet.lines := by
  induction l with
  | nil => rfl
  | cons s rest ih =>
    simp only [List.map_cons, List.flatMap_cons]
    rw [List.map_cons, List.nodup_cons] at h
    have hhead : sectionFor ⟨s :: rest⟩ s.name = s.lines := by
      simp [sectionFor, Workbook.getSheet, List.find?_cons_of_pos]
    have hcongr : (rest.map Sheet.name).flatMap (sectionFor ⟨s :: rest⟩)
        = (rest.map Sheet.name).flatMap (sectionFor ⟨rest⟩) := by
      apply List.flatMap_congr
      intro n hn
      have hne : s.name ≠ n := fun he => h.1 (he ▸ hn)
      have hfalse : ((fun t : Sheet => t.name == n) s) = false := by
        simp [hne]
      simp [sectionFor, Workbook.getSheet, List.find?_cons_of_neg, hfalse]
    rw [hhead, hcongr, ih h.2]

/-- Claim C1: the header section was specified to print min(columnCount, 20)
numbered lines, matching the comment and the printed label of the code
(first 20 columns); the loop bound range(1, min(max_column + 1, 20)) in fact
stops at column min(columnCount, 19), so a 25-column sheet yields 19 header
lines, not 20 (a 3-column sheet still yields 3). -/
theorem headers_off_by_one :
    (∀ ws : Sheet, ws.headers.length = min ws.max_column 19) ∧
    sheet25.headers.length = 19 ∧ sheet3.headers.length = 3 := by
  refine ⟨fun ws => ?_, rfl, rfl⟩
  rw [Sheet.headers, List.length_map, pyRange_length]
  omega

/-- Claim C2: a printed data row was specified to hold the cells at columns
1..min(columnCount, 20) in left-to-right order; the loop
range(1, min(max_column + 1, 20)) in fact reads columns 1..min(columnCount, 19),
so row 2 of the 25-column sheet reads exactly the 19 cells at columns 1..19
(in left-to-right order) and never touches column 20. -/
theorem row_data_first19 :
    (∀ (ws : Sheet) (row : Nat), (ws.row_data row).length = min ws.max_column 19) ∧
    sheet25.row_data 2 =
      [some "2c1", some "2c2", some "2c3", some "2c4", some "2c5",
       some "2c6", some "2c7", some "2c8", some "2c9", some "2c10",
       some "2c11", some "2c12", some "2c13", some "2c14", some "2c15",
       some "2c16", some "2c17", some "2c18", some "2c19"] := by
  refine ⟨fun ws row => ?_, rfl⟩
  rw [Sheet.row_data, List.length_map, pyRange_length]
  omega

/-- Claim C3: the data-row section prints exactly the rows numbered 2 through
min(6, rowCount): a row number is printed iff it lies in that range, and the
number of printed rows is min(6, rowCount) - 1 (0 when rowCount < 2, and 5 for
any sheet with 6 or more rows). -/
theorem dataRows_range (ws : Sheet) :
    (∀ r, r ∈ ws.dataRowNums ↔ 2 ≤ r ∧ r ≤ min 6 ws.max_row) ∧
    ws.dataRowNums.length = min 6 ws.max_row - 1 := by
  constructor
  · intro r
    rw [Sheet.dataRowNums, mem_pyRange]
    omega
  · rw [Sheet.dataRowNums, pyRange_length]
    omega

/-- Claim C4: every printed data-row line is the row number followed by the
first 10 values of the read sequence (never more than 10 values), and the line
ends with the literal ellipsis marker unconditionally: the printed text is
some prefix followed by "...", whatever the length of the row. -/
theorem rowLine_shape (ws : Sheet) (row : Nat) :
    ws.rowLine row = "  Row " ++ toString row ++ ": "
        ++ listRepr ((ws.row_data row).take 10) ++ "..." ∧
    (∃ s, ws.rowLine row = "  Row " ++ toString row ++ ": " ++ s ++ "...") ∧
    ((ws.row_data row).take 10).length = min 10 (ws.row_data row).length := by
  refine ⟨rfl, ⟨listRepr ((ws.row_data row).take 10), rfl⟩, ?_⟩
  simp [List.length_take]

/-- Claim C5: for a workbook whose sheet names are distinct (openpyxl
guarantees unique names), the sheet-name line lists exactly the sheets of the
workbook in workbook order, and the per-sheet sections follow in the same
order: the name-indexed lookup inside the loop recovers each sheet in
workbook order. -/
theorem report_sheet_order (wb : Workbook) (h : wb.sheetnames.Nodup) :
    reportLines wb =
      [bar, "EXCEL FILE STRUCTURE ANALYSIS", bar,
       "\nSheet Names: " ++ namesRepr (wb.sheets.map Sheet.name) ++ "\n"]
      ++ wb.sheets.flatMap Sheet.lines := by
  cases wb with
  | mk l =>
    have hl := sections_in_order l (by simpa [Workbook.sheetnames] using h)
    simp only [reportLines, Workbook.sheetnames] at hl ⊢
    rw [hl]

theorem report_sheet_order_witness :
    reportLines ⟨[sheet3, sheet25]⟩ =
      [bar, "EXCEL FILE STRUCTURE ANALYSIS", bar,
       "\nSheet Names: " ++ namesRepr ([sheet3, sheet25].map Sheet.name) ++ "\n"]
      ++ [sheet3, sheet25].flatMap Sheet.lines :=
  report_sheet_order ⟨[sheet3, sheet25]⟩ (by decide)

/-- Claim C6: every failure of the load step reaches the single boundary and
yields exactly one stdout line whose text is "Error: " followed by the
description of the failure, plus a diagnostic trace that also carries the
description; the result is an ordinary value (the program stops, nothing
escapes uncaught). This covers in particular a nonexistent file path, whose
description is just one possible value of e. -/
theorem error_boundary (e : String) :
    run (Except.error e) =
      [(Chan.out, "Error: " ++ e), (Chan.err, tracebackText e)] ∧
    (∃ line, (Chan.out, line) ∈ run (Except.error e) ∧ ∃ pre, line = pre ++ e) ∧
    (∃ tr, (Chan.err, tr) ∈ run (Except.error e) ∧ ∃ pre, tr = pre ++ e) := by
  refine ⟨rfl, ⟨"Error: " ++ e, ?_, "Error: ", rfl⟩,
          ⟨tracebackText e, ?_, "Traceback (most recent call last):\n", rfl⟩⟩
  · simp [run]
  · simp [run, tracebackText]

/-- Claim C7, counterexample: on a failing load the script emits the
diagnostic trace on stderr (traceback.print_exc writes to stderr), so the
execution with a nonexistent-file failure emits on a channel other than
standard output, refuting the claim that nothing is emitted elsewhere. -/
theorem stderr_emission :
    (Chan.err, tracebackText "no such file") ∈ run (Except.error "no such file")
      ∧ Chan.err ≠ Chan.out := by
  constructor
  · simp [run]
  · decide

/-- Claim C7 as amended: on the success path every emission is on stdout; on
the failure path the output is exactly the error summary on stdout and the
diagnostic trace on stderr. (The embedding is a pure function into text lines:
no file write, no network access and no workbook mutation exists.) -/
theorem run_channels (wb : Workbook) (e : String) :
    ((run (Except.ok wb)).all (fun p => p.1 == Chan.out)) = true ∧
    run (Except.error e) =
      [(Chan.out, "Error: " ++ e), (Chan.err, tracebackText e)] := by
  refine ⟨?_, rfl⟩
  simp [run, List.all_eq_true]

/-- Claim C8: the report is a deterministic function of the load result: two
runs over equal workbook contents produce identical output. -/
theorem run_deterministic (w1 w2 : Except String Workbook) (h : w1 = w2) :
    run w1 = run w2 := by rw [h]

theorem run_deterministic_witness :
    run (Except.ok ⟨[sheet3]⟩) = run (Except.ok ⟨[sheet3]⟩) :=
  run_deterministic (Except.ok ⟨[sheet3]⟩) (Except.ok ⟨[sheet3]⟩) rfl

/-- Claim C9: once a workbook is loaded, reporting raises nothing: every
column index the loops touch lies in 1..min(columnCount, 19), every data-row
index lies in 2..6 (the header loop reads row 1), cell access is total
(absent cells are none), and the whole success run is plain stdout output:
the error branch is reachable only from the load step. -/
theorem report_accesses (ws : Sheet) (wb : Workbook) :
    (∀ c ∈ pyRange 1 (min (ws.max_column + 1) 20), 1 ≤ c ∧ c ≤ min ws.max_column 19) ∧
    (∀ r ∈ ws.dataRowNums, 2 ≤ r ∧ r ≤ 6) ∧
    ((run (Except.ok wb)).all (fun p => p.1 == Chan.out)) = true := by
  refine ⟨fun c hc => ?_, fun r hr => ?_, ?_⟩
  · rw [mem_pyRange] at hc
    omega
  · rw [Sheet.dataRowNums, mem_pyRange] at hr
    omega
  · simp [run, List.all_eq_true]

/-- Claim C10: the inspection is a total function with bounded loops: per
sheet at most 19 header cells, at most 5 data rows, at most 19 cells per row,
and one section per sheet name (as many names as sheets). -/
theorem report_bounded (ws : Sheet) (wb : Workbook) (row : Nat) :
    ws.headers.length ≤ 19 ∧
    ws.dataRowNums.length ≤ 5 ∧
    (ws.row_data row).length ≤ 19 ∧
    wb.sheetnames.length = wb.sheets.length := by
  refine ⟨?_, ?_, ?_, ?_⟩
  · rw [Sheet.headers, List.length_map, pyRange_length]; omega
  · rw [Sheet.dataRowNums, pyRange_length]; omega
  · rw [Sheet.row_data, List.length_map, pyRange_length]; omega
  · rw [Workbook.sheetnames, List.length_map]

end AnalyzeExcel
